import Mathlib

/-!
Verification of the invariant-checking layer of a logical-predicate tree
(`packages/ui-predicate-core/src/invariants.js`).

The module under verification exports a factory taking injected `errors`
(error constructors) and `rules` (structural rules) and returning ten named
invariants.  Each invariant is a pure check over its inputs that either
"passes" (a resolved promise, optionally carrying a value) or "fails" with
exactly one error kind (a rejected promise).  We embed the promise outcome
as `Except UIError α`.

Predicate tree nodes carry a numeric `id` so that the reference identity
used by the injected structural rules can be expressed as decidable
equality of id-carrying nodes.
-/

namespace UIPredicate

/-- A predicate-tree node: either a `ComparisonPredicate` leaf or a
`CompoundPredicate` holding a list of sub-predicates.  The `id` field stands
for the node's object identity. -/
inductive Predicate where
  | Comparison (id : Nat) : Predicate
  | Compound (id : Nat) (predicates : List Predicate) : Predicate

mutual

/-- Boolean structural equality on predicate trees. -/
def Predicate.beq : Predicate → Predicate → Bool
  | .Comparison i, .Comparison j => i == j
  | .Compound i cs, .Compound j ds => i == j && Predicate.beqList cs ds
  | _, _ => false

/-- Boolean structural equality on lists of predicate trees. -/
def Predicate.beqList : List Predicate → List Predicate → Bool
  | [], [] => true
  | p :: ps, q :: qs => Predicate.beq p q && Predicate.beqList ps qs
  | _, _ => false

end

mutual

theorem Predicate.beq_iff : ∀ (p q : Predicate), (Predicate.beq p q = true) ↔ p = q
  | .Comparison _, .Comparison _ => by simp [Predicate.beq]
  | .Comparison _, .Compound _ _ => by simp [Predicate.beq]
  | .Compound _ _, .Comparison _ => by simp [Predicate.beq]
  | .Compound _ cs, .Compound _ ds => by
      have h := Predicate.beqList_iff cs ds
      simp [Predicate.beq, h]

theorem Predicate.beqList_iff :
    ∀ (ps qs : List Predicate), (Predicate.beqList ps qs = true) ↔ ps = qs
  | [], [] => by simp [Predicate.beqList]
  | [], _ :: _ => by simp [Predicate.beqList]
  | _ :: _, [] => by simp [Predicate.beqList]
  | p :: ps, q :: qs => by
      have h1 := Predicate.beq_iff p q
      have h2 := Predicate.beqList_iff ps qs
      simp [Predicate.beqList, h1, h2]

end

instance : DecidableEq Predicate := fun p q =>
  decidable_of_iff (Predicate.beq p q = true) (Predicate.beq_iff p q)

mutual

/-- All nodes of the subtree rooted at a predicate (the node itself and every
descendant), in pre-order. -/
def subnodes : Predicate → List Predicate
  | .Comparison i => [.Comparison i]
  | .Compound i cs => .Compound i cs :: subnodesList cs

/-- All nodes of the subtrees rooted at each predicate of a list. -/
def subnodesList : List Predicate → List Predicate
  | [] => []
  | p :: ps => subnodes p ++ subnodesList ps

end

/-- A `Target` dataclass reference: identifies a comparable field and the
type it implies (only the two id fields are read by the invariants). -/
structure Target where
  target_id : String
  type_id : String
deriving DecidableEq

/-- An `Operator` dataclass reference. -/
structure Operator where
  operator_id : String
deriving DecidableEq

/-- A `Type` dataclass (the data type implied by a Target). -/
structure DType where
  type_id : String
deriving DecidableEq

/-- JavaScript values yielded by invariants whose resolution value is
dynamically typed: a bare dataclass, or an Option-wrapped one.  Keeping the
wrapper visible in the embedding records whether an invariant resolves with
the Option object itself or with its unwrapped content. -/
inductive Value where
  | target (t : Target)
  | operator (o : Operator)
  | dtype (ty : DType)
  | optTarget (o : Option Target)
  | optOperator (o : Option Operator)
deriving DecidableEq

/-- The injected error constructors (`errors`), one per invariant.  Only
`TargetMustReferToADefinedType` is constructed with a diagnostic message in
`invariants.js`. -/
inductive UIError where
  | CompoundPredicateMustHaveAtLeastOneSubPredicate
  | InvalidPredicateType
  | RootPredicateMustBeACompoundPredicate
  | PredicateMustBeAComparisonPredicate
  | AddCurrentlyOnlySupportAfterInsertion
  | TargetMustReferToADefinedType (message : String)
  | Target_idMustReferToADefinedTarget
  | Operator_idMustReferToADefinedOperator
  | ForbiddenCannotRemoveRootCompoundPredicate
  | ForbiddenCannotRemoveLastComparisonPredicate
deriving DecidableEq

instance {ε α : Type} [DecidableEq ε] [DecidableEq α] : DecidableEq (Except ε α) := fun a b =>
  match a, b with
  | .error e₁, .error e₂ => decidable_of_iff (e₁ = e₂) (by simp)
  | .ok v₁, .ok v₂ => decidable_of_iff (v₁ = v₂) (by simp)
  | .error _, .ok _ => isFalse (by simp)
  | .ok _, .error _ => isFalse (by simp)

/-- The ten kinds of the error taxonomy, with the diagnostic message
stripped. -/
inductive ErrKind where
  | compoundPredicateMustHaveAtLeastOneSubPredicate
  | invalidPredicateType
  | rootPredicateMustBeACompoundPredicate
  | predicateMustBeAComparisonPredicate
  | addCurrentlyOnlySupportAfterInsertion
  | targetMustReferToADefinedType
  | target_idMustReferToADefinedTarget
  | operator_idMustReferToADefinedOperator
  | forbiddenCannotRemoveRootCompoundPredicate
  | forbiddenCannotRemoveLastComparisonPredicate
deriving DecidableEq

/-- The taxonomy kind of an error value. -/
def UIError.kind : UIError → ErrKind
  | .CompoundPredicateMustHaveAtLeastOneSubPredicate =>
      .compoundPredicateMustHaveAtLeastOneSubPredicate
  | .InvalidPredicateType => .invalidPredicateType
  | .RootPredicateMustBeACompoundPredicate => .rootPredicateMustBeACompoundPredicate
  | .PredicateMustBeAComparisonPredicate => .predicateMustBeAComparisonPredicate
  | .AddCurrentlyOnlySupportAfterInsertion => .addCurrentlyOnlySupportAfterInsertion
  | .TargetMustReferToADefinedType _ => .targetMustReferToADefinedType
  | .Target_idMustReferToADefinedTarget => .target_idMustReferToADefinedTarget
  | .Operator_idMustReferToADefinedOperator => .operator_idMustReferToADefinedOperator
  | .ForbiddenCannotRemoveRootCompoundPredicate =>
      .forbiddenCannotRemoveRootCompoundPredicate
  | .ForbiddenCannotRemoveLastComparisonPredicate =>
      .forbiddenCannotRemoveLastComparisonPredicate

/-- The taxonomy kind with which an invariant outcome failed, if it failed. -/
def resultKind {α : Type} : Except UIError α → Option ErrKind
  | .error e => some e.kind
  | .ok _ => none

/-- Modelled from the spec: the `CompoundPredicate.is` variant-check
capability supplied by the tree-node implementation (the dataclasses are not
part of the verified source); true exactly on the CompoundPredicate
variant. -/
def CompoundPredicate_is : Predicate → Bool
  | .Compound _ _ => true
  | _ => false

/-- Modelled from the spec: the `ComparisonPredicate.is` variant-check
capability supplied by the tree-node implementation; true exactly on the
ComparisonPredicate variant. -/
def ComparisonPredicate_is : Predicate → Bool
  | .Comparison _ => true
  | _ => false

/-- Modelled from the spec: the structural `$_type` tag carried by predicate
nodes built by the tree-node implementation, equal to the variant name. -/
def dollarType : Predicate → String
  | .Comparison _ => "ComparisonPredicate"
  | .Compound _ _ => "CompoundPredicate"

/-- The JavaScript argument given to `CompoundPredicateMustHaveAtLeastOneSubPredicate`:
an array of predicates, `null`, or any other non-array value. -/
inductive PredicatesArg where
  | arr (predicates : List Predicate)
  | jsNull
  | nonArray
deriving DecidableEq

/-- The JavaScript argument given to `PredicateMustBeAComparisonPredicate`:
a predicate node object, or any value for which `is(Object, root)` is
false. -/
inductive JSArg where
  | pred (p : Predicate)
  | nonObject
deriving DecidableEq

/-- JSON rendering of one character of a string content (external
`JSON.stringify` behaviour on quote and backslash). -/
def jsonEscapeChar (c : Char) : String :=
  if c = '"' then "\\\"" else if c = '\\' then "\\\\" else String.singleton c

/-- JSON rendering of a string (external `JSON.stringify` on strings):
escaped content between double quotes. -/
def jsonStringifyString (s : String) : String :=
  "\"" ++ String.join (s.data.map jsonEscapeChar) ++ "\""

/-- The diagnostic message built by `TargetMustReferToADefinedType`. -/
def targetTypeMessage (target : Target) : String :=
  "target " ++ jsonStringifyString target.target_id ++
    " does not refer to a defined type, target.type_id=" ++
    jsonStringifyString target.type_id

/-- The keys of a JavaScript object, modelled as an association list
(`Object.keys`: each key once). -/
def Object_keys {α : Type} (obj : List (String × α)) : List String :=
  (obj.map Prod.fst).dedup

/-- Modelled from the spec: the injected structural rule
`rules.predicateToRemoveIsRootPredicate` (its source is not under the
verified tree; the spec defines it as reference identity of candidate and
root, which the id-carrying embedding expresses as equality). -/
def predicateToRemoveIsRootPredicate (root predicateToRemove : Predicate) : Bool :=
  root == predicateToRemove

/-- Count of the nodes of `root`'s subtree satisfying a ComparisonPredicate
variant check (a full subtree traversal). -/
def comparisonPredicateCount (root : Predicate) (isComparison : Predicate → Bool) : Nat :=
  ((subnodes root).filter isComparison).length

/-- Modelled from the spec: the injected structural rule
`rules.predicateToRemoveIsTheLastComparisonPredicate` (its source is not
under the verified tree).  The spec words it as "removing the candidate
would leave zero ComparisonPredicate leaves reachable from root", but the
call in `invariants.js` passes only the root and the two variant-check
capabilities — never the candidate — so the rule can only consult the root:
for a candidate that is one of root's ComparisonPredicate leaves, that
condition is equivalent to the count of ComparisonPredicate leaves
reachable from root being exactly one, which is what this rule computes. -/
def predicateToRemoveIsTheLastComparisonPredicate (root : Predicate)
    (_isCompound isComparison : Predicate → Bool) : Bool :=
  comparisonPredicateCount root isComparison == 1

/-- Invariant `CompoundPredicateMustHaveAtLeastOneSubPredicate`: rejects when
the argument is not an array or is an empty array, resolves (with no value)
otherwise. -/
def CompoundPredicateMustHaveAtLeastOneSubPredicate
    (predicates : PredicatesArg) : Except UIError Unit :=
  match predicates with
  | .arr ps =>
      if ps.length = 0 then
        .error .CompoundPredicateMustHaveAtLeastOneSubPredicate
      else .ok ()
  | _ => .error .CompoundPredicateMustHaveAtLeastOneSubPredicate

/-- Invariant `PredicateTypeMustBeValid`: rejects when the type tag is not
among the keys of the accepted-types object, resolves otherwise. -/
def PredicateTypeMustBeValid {α : Type} (type : String)
    (acceptedTypes : List (String × α)) : Except UIError Unit :=
  if !((Object_keys acceptedTypes).contains type) then
    .error .InvalidPredicateType
  else .ok ()

/-- Invariant `RootPredicateMustBeACompoundPredicate`: rejects when the
supplied `CompoundPredicate.is` capability denies the root, resolves with
the root otherwise. -/
def RootPredicateMustBeACompoundPredicate (root : Predicate)
    (isCompound : Predicate → Bool) : Except UIError Predicate :=
  if !(isCompound root) then
    .error .RootPredicateMustBeACompoundPredicate
  else .ok root

/-- Invariant `PredicateMustBeAComparisonPredicate`: rejects when the
argument is not an object or its `$_type` tag differs from
`"ComparisonPredicate"`, resolves otherwise. -/
def PredicateMustBeAComparisonPredicate (root : JSArg) : Except UIError Unit :=
  match root with
  | .pred p =>
      if dollarType p ≠ "ComparisonPredicate" then
        .error .PredicateMustBeAComparisonPredicate
      else .ok ()
  | .nonObject => .error .PredicateMustBeAComparisonPredicate

/-- Invariant `AddOnlySupportsAfter`: rejects unless the insertion mode is
`"after"`. -/
def AddOnlySupportsAfter (how : String) : Except UIError Unit :=
  if how ≠ "after" then
    .error .AddCurrentlyOnlySupportAfterInsertion
  else .ok ()

/-- Invariant `TargetMustReferToADefinedType`: rejects with a diagnostic
message when the resolved-type option is absent, resolves with the unwrapped
type (`type.value()`) otherwise. -/
def TargetMustReferToADefinedType (type : Option DType) (target : Target) :
    Except UIError Value :=
  match type with
  | none => .error (.TargetMustReferToADefinedType (targetTypeMessage target))
  | some v => .ok (.dtype v)

/-- Invariant `Target_idMustReferToADefinedTarget`: rejects when the target
option is absent, resolves with the option itself (`Promise.resolve(target)`)
otherwise. -/
def Target_idMustReferToADefinedTarget (target : Option Target) :
    Except UIError Value :=
  if target.isNone then
    .error .Target_idMustReferToADefinedTarget
  else .ok (.optTarget target)

/-- Invariant `Operator_idMustReferToADefinedOperator`: rejects when the
operator option is absent, resolves with the option itself
(`Promise.resolve(operator)`) otherwise. -/
def Operator_idMustReferToADefinedOperator (operator : Option Operator) :
    Except UIError Value :=
  if operator.isNone then
    .error .Operator_idMustReferToADefinedOperator
  else .ok (.optOperator operator)

/-- Invariant `RemovePredicateMustDifferFromRootPredicate`, parametrised by
the injected `rules.predicateToRemoveIsRootPredicate`: rejects when the rule
holds, resolves with the candidate otherwise. -/
def RemovePredicateMustDifferFromRootPredicate
    (rulesIsRoot : Predicate → Predicate → Bool)
    (root predicateToRemove : Predicate) : Except UIError Predicate :=
  if rulesIsRoot root predicateToRemove then
    .error .ForbiddenCannotRemoveRootCompoundPredicate
  else .ok predicateToRemove

/-- Invariant `RemovePredicateCannotBeTheLastComparisonPredicate`,
parametrised by the injected
`rules.predicateToRemoveIsTheLastComparisonPredicate`: rejects when the
candidate is a ComparisonPredicate and the rule holds of the root; note the
rule receives only the root and the two variant-check capabilities. -/
def RemovePredicateCannotBeTheLastComparisonPredicate
    (rulesIsLast : Predicate → (Predicate → Bool) → (Predicate → Bool) → Bool)
    (root predicateToRemove : Predicate)
    (isCompound isComparison : Predicate → Bool) : Except UIError Unit :=
  if isComparison predicateToRemove && rulesIsLast root isCompound isComparison then
    .error .ForbiddenCannotRemoveLastComparisonPredicate
  else .ok ()

mutual

/-- Count of ComparisonPredicate leaves of a subtree, excluding the
candidate's own subtree (the counting the spec prescribes for
`PredicateToRemoveIsTheLastComparisonPredicate`: removal deletes the whole
candidate node, descendants included). -/
def comparisonLeavesExcluding : Predicate → Predicate → Nat
  | candidate, .Comparison i =>
      if Predicate.Comparison i = candidate then 0 else 1
  | candidate, .Compound i cs =>
      if Predicate.Compound i cs = candidate then 0
      else comparisonLeavesExcludingList candidate cs

/-- Count of ComparisonPredicate leaves of a list of subtrees, excluding the
candidate's own subtree. -/
def comparisonLeavesExcludingList : Predicate → List Predicate → Nat
  | _, [] => 0
  | candidate, p :: ps =>
      comparisonLeavesExcluding candidate p + comparisonLeavesExcludingList candidate ps

end

/-- Appending strings appends their character lists. -/
theorem string_data_append (a b : String) : (a ++ b).data = a.data ++ b.data := by
  cases a; cases b; rfl

mutual

theorem leavesExcluding_add_count (j : Nat) :
    ∀ p : Predicate,
      comparisonLeavesExcluding (.Comparison j) p + (subnodes p).count (.Comparison j)
        = ((subnodes p).filter ComparisonPredicate_is).length
  | .Comparison i => by
      by_cases h : Predicate.Comparison i = Predicate.Comparison j <;>
        simp [comparisonLeavesExcluding, subnodes, ComparisonPredicate_is, h,
          List.count_cons, List.count_nil]
  | .Compound i cs => by
      have hl := leavesExcludingList_add_count j cs
      simp [comparisonLeavesExcluding, subnodes, ComparisonPredicate_is,
        List.count_cons, hl]

theorem leavesExcludingList_add_count (j : Nat) :
    ∀ ps : List Predicate,
      comparisonLeavesExcludingList (.Comparison j) ps
          + (subnodesList ps).count (.Comparison j)
        = ((subnodesList ps).filter ComparisonPredicate_is).length
  | [] => by simp [comparisonLeavesExcludingList, subnodesList]
  | p :: ps => by
      have h1 := leavesExcluding_add_count j p
      have h2 := leavesExcludingList_add_count j ps
      simp only [comparisonLeavesExcludingList, subnodesList, List.count_append,
        List.filter_append, List.length_append]
      omega

end

/-- C1 (amended): for every root and every ComparisonPredicate candidate that
occurs exactly once in root's subtree (as the reference identity of real
trees guarantees), `RemovePredicateCannotBeTheLastComparisonPredicate` fails
with `ForbiddenCannotRemoveLastComparisonPredicate` exactly when removing
the candidate (excluding the candidate's own subtree from the count) would
leave zero ComparisonPredicate leaves reachable from root; in particular,
when root has exactly one reachable ComparisonPredicate leaf and the
candidate is that leaf it fails, and when root has two or more reachable
ComparisonPredicate leaves it passes for any single one of them. -/
theorem removeLastComparison_amended (root candidate : Predicate)
    (hc : ComparisonPredicate_is candidate = true)
    (hone : (subnodes root).count candidate = 1) :
    (RemovePredicateCannotBeTheLastComparisonPredicate
        predicateToRemoveIsTheLastComparisonPredicate root candidate
        CompoundPredicate_is ComparisonPredicate_is
      = .error .ForbiddenCannotRemoveLastComparisonPredicate)
      ↔ comparisonLeavesExcluding candidate root = 0 := by
  obtain ⟨j, rfl⟩ : ∃ j, candidate = Predicate.Comparison j := by
    cases candidate with
    | Comparison j => exact ⟨j, rfl⟩
    | Compound i cs => simp [ComparisonPredicate_is] at hc
  have key := leavesExcluding_add_count j root
  rw [hone] at key
  unfold RemovePredicateCannotBeTheLastComparisonPredicate
    predicateToRemoveIsTheLastComparisonPredicate comparisonPredicateCount
  rw [hc]
  by_cases hcount : ((subnodes root).filter ComparisonPredicate_is).length = 1 <;>
    simp [hcount] <;> omega

/-- Witness for `removeLastComparison_amended` at a one-leaf root and its
unique leaf. -/
theorem removeLastComparison_amended_witness :
    ((subnodes (Predicate.Compound 0 [Predicate.Comparison 1])).count
        (Predicate.Comparison 1) = 1)
    ∧ ((RemovePredicateCannotBeTheLastComparisonPredicate
          predicateToRemoveIsTheLastComparisonPredicate
          (Predicate.Compound 0 [Predicate.Comparison 1]) (Predicate.Comparison 1)
          CompoundPredicate_is ComparisonPredicate_is
        = .error .ForbiddenCannotRemoveLastComparisonPredicate)
        ↔ comparisonLeavesExcluding (Predicate.Comparison 1)
            (Predicate.Compound 0 [Predicate.Comparison 1]) = 0) :=
  ⟨by decide, removeLastComparison_amended _ _ (by decide) (by decide)⟩

/-- C1 (counterexample to the claim as stated): a ComparisonPredicate
candidate that does not occur under the root.  Removing it would leave the
root's one ComparisonPredicate leaf intact (one, not zero, leaves remain),
yet the invariant fails, because the injected structural rule never
receives the candidate and only consults the root. -/
theorem removeLastComparison_claim_counterexample :
    ComparisonPredicate_is (Predicate.Comparison 2) = true
    ∧ comparisonLeavesExcluding (Predicate.Comparison 2)
        (Predicate.Compound 0 [Predicate.Comparison 1]) ≠ 0
    ∧ RemovePredicateCannotBeTheLastComparisonPredicate
        predicateToRemoveIsTheLastComparisonPredicate
        (Predicate.Compound 0 [Predicate.Comparison 1]) (Predicate.Comparison 2)
        CompoundPredicate_is ComparisonPredicate_is
      = .error .ForbiddenCannotRemoveLastComparisonPredicate := by decide

/-- C2 (amended): for every absent Option input, each of
`Target_idMustReferToADefinedTarget`, `Operator_idMustReferToADefinedOperator`
and `TargetMustReferToADefinedType` fails with its corresponding error kind;
for every present Option input each passes, `TargetMustReferToADefinedType`
yielding the unwrapped contained type, while
`Target_idMustReferToADefinedTarget` and
`Operator_idMustReferToADefinedOperator` yield the given Option itself,
still wrapped. -/
theorem optionInvariants_amended (t : Target) (o : Operator) (v : DType) (tg : Target) :
    Target_idMustReferToADefinedTarget none = .error .Target_idMustReferToADefinedTarget
    ∧ Operator_idMustReferToADefinedOperator none
        = .error .Operator_idMustReferToADefinedOperator
    ∧ (∃ m, TargetMustReferToADefinedType none tg
        = .error (.TargetMustReferToADefinedType m))
    ∧ Target_idMustReferToADefinedTarget (some t) = .ok (.optTarget (some t))
    ∧ Operator_idMustReferToADefinedOperator (some o) = .ok (.optOperator (some o))
    ∧ TargetMustReferToADefinedType (some v) tg = .ok (.dtype v) :=
  ⟨rfl, rfl, ⟨targetTypeMessage tg, rfl⟩, rfl, rfl, rfl⟩

/-- C2 (counterexample to the claim as stated): on a present target Option,
`Target_idMustReferToADefinedTarget` does not yield the unwrapped contained
Target — it resolves with the Option object itself, still wrapped. -/
theorem targetId_yield_counterexample :
    Target_idMustReferToADefinedTarget (some ⟨"age", "int"⟩)
      ≠ .ok (.target ⟨"age", "int"⟩)
    ∧ Target_idMustReferToADefinedTarget (some ⟨"age", "int"⟩)
      = .ok (.optTarget (some ⟨"age", "int"⟩)) := by
  exact ⟨by decide, rfl⟩

/-- C3: with the injected rule being reference identity,
`RemovePredicateMustDifferFromRootPredicate` fails with
`ForbiddenCannotRemoveRootCompoundPredicate` exactly when the candidate is
identical to the root; on the root itself it always fails, and on any
distinct candidate it passes, yielding the candidate unchanged. -/
theorem removeRoot_invariant_correct (root candidate : Predicate) :
    (RemovePredicateMustDifferFromRootPredicate predicateToRemoveIsRootPredicate
        root candidate = .error .ForbiddenCannotRemoveRootCompoundPredicate
      ↔ root = candidate)
    ∧ RemovePredicateMustDifferFromRootPredicate predicateToRemoveIsRootPredicate
        root root = .error .ForbiddenCannotRemoveRootCompoundPredicate
    ∧ (root ≠ candidate →
        RemovePredicateMustDifferFromRootPredicate predicateToRemoveIsRootPredicate
          root candidate = .ok candidate) := by
  refine ⟨?_, ?_, ?_⟩
  · by_cases h : root = candidate <;>
      simp [RemovePredicateMustDifferFromRootPredicate,
        predicateToRemoveIsRootPredicate, h]
  · simp [RemovePredicateMustDifferFromRootPredicate, predicateToRemoveIsRootPredicate]
  · intro h
    simp [RemovePredicateMustDifferFromRootPredicate,
      predicateToRemoveIsRootPredicate, h]

/-- Witness for `removeRoot_invariant_correct` on two distinct nodes. -/
theorem removeRoot_invariant_witness :
    Predicate.Comparison 0 ≠ Predicate.Comparison 1
    ∧ RemovePredicateMustDifferFromRootPredicate predicateToRemoveIsRootPredicate
        (Predicate.Comparison 0) (Predicate.Comparison 1)
      = .ok (Predicate.Comparison 1) :=
  ⟨by decide,
    (removeRoot_invariant_correct (Predicate.Comparison 0)
      (Predicate.Comparison 1)).2.2 (by decide)⟩

/-- C4: `PredicateMustBeAComparisonPredicate` passes exactly when its
argument is a predicate node of the ComparisonPredicate variant (the proper
variant check), and fails with the `PredicateMustBeAComparisonPredicate`
kind on every other input. -/
theorem comparisonPredicate_invariant_correct (a : JSArg) :
    (PredicateMustBeAComparisonPredicate a = .ok ()
      ↔ ∃ p, a = JSArg.pred p ∧ ComparisonPredicate_is p = true)
    ∧ (PredicateMustBeAComparisonPredicate a = .ok ()
      ∨ PredicateMustBeAComparisonPredicate a
          = .error .PredicateMustBeAComparisonPredicate) := by
  cases a with
  | pred p =>
      cases p <;>
        simp [PredicateMustBeAComparisonPredicate, dollarType, ComparisonPredicate_is]
  | nonObject => simp [PredicateMustBeAComparisonPredicate]

/-- C5: on an absent resolved-type Option, `TargetMustReferToADefinedType`
fails with a `TargetMustReferToADefinedType` error whose diagnostic message
embeds the originating target's `target_id` and `type_id` (in their
`JSON.stringify` rendering); on a present Option it passes and yields the
unwrapped type. -/
theorem targetType_message_embeds_ids (target : Target) :
    (∃ m, TargetMustReferToADefinedType none target
        = .error (.TargetMustReferToADefinedType m)
      ∧ (jsonStringifyString target.target_id).data <:+: m.data
      ∧ (jsonStringifyString target.type_id).data <:+: m.data)
    ∧ (∀ v, TargetMustReferToADefinedType (some v) target = .ok (.dtype v)) := by
  refine ⟨⟨targetTypeMessage target, rfl, ?_, ?_⟩, fun v => rfl⟩
  · refine ⟨"target ".data,
      (" does not refer to a defined type, target.type_id="
        ++ jsonStringifyString target.type_id).data, ?_⟩
    simp [targetTypeMessage, string_data_append]
  · refine ⟨("target " ++ jsonStringifyString target.target_id
        ++ " does not refer to a defined type, target.type_id=").data, [], ?_⟩
    simp [targetTypeMessage, string_data_append]

/-- C6: the error mapping is one-to-one — each of the ten invariants can
fail (for some input) and, whatever the inputs, only ever fails with its own
taxonomy kind, and the ten designated kinds are pairwise distinct, so no
kind is raised by two different invariants. -/
theorem error_mapping_one_to_one :
    (∀ x, resultKind (CompoundPredicateMustHaveAtLeastOneSubPredicate x) = none
      ∨ resultKind (CompoundPredicateMustHaveAtLeastOneSubPredicate x)
          = some ErrKind.compoundPredicateMustHaveAtLeastOneSubPredicate)
    ∧ (∃ x, resultKind (CompoundPredicateMustHaveAtLeastOneSubPredicate x)
        = some ErrKind.compoundPredicateMustHaveAtLeastOneSubPredicate)
    ∧ (∀ (α : Type) (t : String) (m : List (String × α)),
        resultKind (PredicateTypeMustBeValid t m) = none
      ∨ resultKind (PredicateTypeMustBeValid t m) = some ErrKind.invalidPredicateType)
    ∧ (∃ t : String, resultKind (PredicateTypeMustBeValid t ([] : List (String × Unit)))
        = some ErrKind.invalidPredicateType)
    ∧ (∀ (root : Predicate) (cap : Predicate → Bool),
        resultKind (RootPredicateMustBeACompoundPredicate root cap) = none
      ∨ resultKind (RootPredicateMustBeACompoundPredicate root cap)
          = some ErrKind.rootPredicateMustBeACompoundPredicate)
    ∧ (∃ root : Predicate,
        resultKind (RootPredicateMustBeACompoundPredicate root (fun _ => false))
          = some ErrKind.rootPredicateMustBeACompoundPredicate)
    ∧ (∀ a, resultKind (PredicateMustBeAComparisonPredicate a) = none
      ∨ resultKind (PredicateMustBeAComparisonPredicate a)
          = some ErrKind.predicateMustBeAComparisonPredicate)
    ∧ (∃ a, resultKind (PredicateMustBeAComparisonPredicate a)
        = some ErrKind.predicateMustBeAComparisonPredicate)
    ∧ (∀ how, resultKind (AddOnlySupportsAfter how) = none
      ∨ resultKind (AddOnlySupportsAfter how)
          = some ErrKind.addCurrentlyOnlySupportAfterInsertion)
    ∧ (∃ how, resultKind (AddOnlySupportsAfter how)
        = some ErrKind.addCurrentlyOnlySupportAfterInsertion)
    ∧ (∀ ty tg, resultKind (TargetMustReferToADefinedType ty tg) = none
      ∨ resultKind (TargetMustReferToADefinedType ty tg)
          = some ErrKind.targetMustReferToADefinedType)
    ∧ (∃ tg, resultKind (TargetMustReferToADefinedType none tg)
        = some ErrKind.targetMustReferToADefinedType)
    ∧ (∀ t, resultKind (Target_idMustReferToADefinedTarget t) = none
      ∨ resultKind (Target_idMustReferToADefinedTarget t)
          = some ErrKind.target_idMustReferToADefinedTarget)
    ∧ (resultKind (Target_idMustReferToADefinedTarget none)
        = some ErrKind.target_idMustReferToADefinedTarget)
    ∧ (∀ o, resultKind (Operator_idMustReferToADefinedOperator o) = none
      ∨ resultKind (Operator_idMustReferToADefinedOperator o)
          = some ErrKind.operator_idMustReferToADefinedOperator)
    ∧ (resultKind (Operator_idMustReferToADefinedOperator none)
        = some ErrKind.operator_idMustReferToADefinedOperator)
    ∧ (∀ (rule : Predicate → Predicate → Bool) (root cand : Predicate),
        resultKind (RemovePredicateMustDifferFromRootPredicate rule root cand) = none
      ∨ resultKind (RemovePredicateMustDifferFromRootPredicate rule root cand)
          = some ErrKind.forbiddenCannotRemoveRootCompoundPredicate)
    ∧ (∃ root : Predicate,
        resultKind (RemovePredicateMustDifferFromRootPredicate
            predicateToRemoveIsRootPredicate root root)
          = some ErrKind.forbiddenCannotRemoveRootCompoundPredicate)
    ∧ (∀ (rule : Predicate → (Predicate → Bool) → (Predicate → Bool) → Bool)
        (root cand : Predicate) (cc cp : Predicate → Bool),
        resultKind (RemovePredicateCannotBeTheLastComparisonPredicate
            rule root cand cc cp) = none
      ∨ resultKind (RemovePredicateCannotBeTheLastComparisonPredicate
            rule root cand cc cp)
          = some ErrKind.forbiddenCannotRemoveLastComparisonPredicate)
    ∧ (∃ root cand : Predicate,
        resultKind (RemovePredicateCannotBeTheLastComparisonPredicate
            predicateToRemoveIsTheLastComparisonPredicate root cand
            CompoundPredicate_is ComparisonPredicate_is)
          = some ErrKind.forbiddenCannotRemoveLastComparisonPredicate)
    ∧ List.Nodup
        [ErrKind.compoundPredicateMustHaveAtLeastOneSubPredicate,
         ErrKind.invalidPredicateType,
         ErrKind.rootPredicateMustBeACompoundPredicate,
         ErrKind.predicateMustBeAComparisonPredicate,
         ErrKind.addCurrentlyOnlySupportAfterInsertion,
         ErrKind.targetMustReferToADefinedType,
         ErrKind.target_idMustReferToADefinedTarget,
         ErrKind.operator_idMustReferToADefinedOperator,
         ErrKind.forbiddenCannotRemoveRootCompoundPredicate,
         ErrKind.forbiddenCannotRemoveLastComparisonPredicate] := by
  refine ⟨?_, ⟨.jsNull, rfl⟩, ?_, ⟨"x", rfl⟩, ?_, ⟨.Comparison 0, rfl⟩,
    ?_, ⟨.nonObject, rfl⟩, ?_, ⟨"before", rfl⟩, ?_, ⟨⟨"a", "b"⟩, rfl⟩,
    ?_, rfl, ?_, rfl, ?_, ⟨.Comparison 0, rfl⟩,
    ?_, ⟨.Compound 0 [.Comparison 1], .Comparison 1, rfl⟩, by decide⟩
  · intro x
    cases x with
    | arr ps =>
        by_cases h : ps.length = 0 <;>
          simp [CompoundPredicateMustHaveAtLeastOneSubPredicate, h, resultKind,
            UIError.kind]
    | jsNull => simp [CompoundPredicateMustHaveAtLeastOneSubPredicate, resultKind,
        UIError.kind]
    | nonArray => simp [CompoundPredicateMustHaveAtLeastOneSubPredicate, resultKind,
        UIError.kind]
  · intro α t m
    by_cases h : t ∈ Object_keys m <;>
      simp [PredicateTypeMustBeValid, h, resultKind, UIError.kind]
  · intro root cap
    by_cases h : cap root <;>
      simp [RootPredicateMustBeACompoundPredicate, h, resultKind, UIError.kind]
  · intro a
    cases a with
    | pred p =>
        by_cases h : dollarType p = "ComparisonPredicate" <;>
          simp [PredicateMustBeAComparisonPredicate, h, resultKind, UIError.kind]
    | nonObject => simp [PredicateMustBeAComparisonPredicate, resultKind, UIError.kind]
  · intro how
    by_cases h : how = "after" <;>
      simp [AddOnlySupportsAfter, h, resultKind, UIError.kind]
  · intro ty tg
    cases ty <;> simp [TargetMustReferToADefinedType, resultKind, UIError.kind]
  · intro t
    cases t <;> simp [Target_idMustReferToADefinedTarget, resultKind, UIError.kind]
  · intro o
    cases o <;> simp [Operator_idMustReferToADefinedOperator, resultKind, UIError.kind]
  · intro rule root cand
    by_cases h : rule root cand <;>
      simp [RemovePredicateMustDifferFromRootPredicate, h, resultKind, UIError.kind]
  · intro rule root cand cc cp
    by_cases h : cp cand && rule root cc cp <;>
      simp [RemovePredicateCannotBeTheLastComparisonPredicate, h, resultKind,
        UIError.kind]

/-- C7: every invariant is deterministic — two runs on identical inputs
yield identical outcomes (the embedding of each invariant is a pure
function of its inputs, with no hidden state). -/
theorem invariants_deterministic :
    (∀ x, CompoundPredicateMustHaveAtLeastOneSubPredicate x
        = CompoundPredicateMustHaveAtLeastOneSubPredicate x)
    ∧ (∀ (α : Type) (t : String) (m : List (String × α)),
        PredicateTypeMustBeValid t m = PredicateTypeMustBeValid t m)
    ∧ (∀ root cap, RootPredicateMustBeACompoundPredicate root cap
        = RootPredicateMustBeACompoundPredicate root cap)
    ∧ (∀ a, PredicateMustBeAComparisonPredicate a = PredicateMustBeAComparisonPredicate a)
    ∧ (∀ how, AddOnlySupportsAfter how = AddOnlySupportsAfter how)
    ∧ (∀ ty tg, TargetMustReferToADefinedType ty tg = TargetMustReferToADefinedType ty tg)
    ∧ (∀ t, Target_idMustReferToADefinedTarget t = Target_idMustReferToADefinedTarget t)
    ∧ (∀ o, Operator_idMustReferToADefinedOperator o
        = Operator_idMustReferToADefinedOperator o)
    ∧ (∀ rule root cand, RemovePredicateMustDifferFromRootPredicate rule root cand
        = RemovePredicateMustDifferFromRootPredicate rule root cand)
    ∧ (∀ rule root cand cc cp,
        RemovePredicateCannotBeTheLastComparisonPredicate rule root cand cc cp
          = RemovePredicateCannotBeTheLastComparisonPredicate rule root cand cc cp) :=
  ⟨fun _ => rfl, fun _ _ _ => rfl, fun _ _ => rfl, fun _ => rfl, fun _ => rfl,
    fun _ _ => rfl, fun _ => rfl, fun _ => rfl, fun _ _ _ => rfl,
    fun _ _ _ _ _ => rfl⟩

/-- C8: `CompoundPredicateMustHaveAtLeastOneSubPredicate` passes exactly on
non-empty arrays of predicates, and fails with its own kind on the empty
array, on `null`, and on every non-array value. -/
theorem compoundMustHaveSub_correct (x : PredicatesArg) :
    (CompoundPredicateMustHaveAtLeastOneSubPredicate x = .ok ()
      ↔ ∃ p ps, x = PredicatesArg.arr (p :: ps))
    ∧ (CompoundPredicateMustHaveAtLeastOneSubPredicate x = .ok ()
      ∨ CompoundPredicateMustHaveAtLeastOneSubPredicate x
          = .error .CompoundPredicateMustHaveAtLeastOneSubPredicate) := by
  cases x with
  | arr ps => cases ps <;> simp [CompoundPredicateMustHaveAtLeastOneSubPredicate]
  | jsNull => simp [CompoundPredicateMustHaveAtLeastOneSubPredicate]
  | nonArray => simp [CompoundPredicateMustHaveAtLeastOneSubPredicate]

/-- C9: `RemovePredicateCannotBeTheLastComparisonPredicate` invokes the
injected structural rule without passing the candidate, so for any two
candidates both accepted by the ComparisonPredicate variant check its
outcome is the same — it depends only on the root, the rule, and the
supplied variant-check capabilities. -/
theorem removeLastComparison_candidate_independent
    (rulesIsLast : Predicate → (Predicate → Bool) → (Predicate → Bool) → Bool)
    (root c₁ c₂ : Predicate) (isCompound isComparison : Predicate → Bool)
    (h₁ : isComparison c₁ = true) (h₂ : isComparison c₂ = true) :
    RemovePredicateCannotBeTheLastComparisonPredicate rulesIsLast root c₁
        isCompound isComparison
      = RemovePredicateCannotBeTheLastComparisonPredicate rulesIsLast root c₂
        isCompound isComparison := by
  unfold RemovePredicateCannotBeTheLastComparisonPredicate
  rw [h₁, h₂]

/-- Witness for `removeLastComparison_candidate_independent` on the two
leaves of a two-leaf root. -/
theorem removeLastComparison_candidate_independent_witness :
    ComparisonPredicate_is (Predicate.Comparison 1) = true
    ∧ ComparisonPredicate_is (Predicate.Comparison 2) = true
    ∧ RemovePredicateCannotBeTheLastComparisonPredicate
        predicateToRemoveIsTheLastComparisonPredicate
        (Predicate.Compound 0 [Predicate.Comparison 1, Predicate.Comparison 2])
        (Predicate.Comparison 1) CompoundPredicate_is ComparisonPredicate_is
      = RemovePredicateCannotBeTheLastComparisonPredicate
        predicateToRemoveIsTheLastComparisonPredicate
        (Predicate.Compound 0 [Predicate.Comparison 1, Predicate.Comparison 2])
        (Predicate.Comparison 2) CompoundPredicate_is ComparisonPredicate_is :=
  ⟨by decide, by decide,
    removeLastComparison_candidate_independent _ _ _ _ _ _ (by decide) (by decide)⟩

/-- C10: the outcome of `PredicateTypeMustBeValid` depends only on the type
tag and the key set of the accepted-types object — two objects with the
same key set (even over different value types) give identical outcomes,
because the values are never inspected. -/
theorem predicateTypeValid_depends_only_on_keys (α β : Type) (t : String)
    (m₁ : List (String × α)) (m₂ : List (String × β))
    (h : ∀ k, k ∈ m₁.map Prod.fst ↔ k ∈ m₂.map Prod.fst) :
    PredicateTypeMustBeValid t m₁ = PredicateTypeMustBeValid t m₂ := by
  have h1 : (Object_keys m₁).contains t = (Object_keys m₂).contains t := by
    simp only [Object_keys, List.contains, List.elem_eq_mem, decide_eq_decide,
      List.mem_dedup]
    exact h t
  unfold PredicateTypeMustBeValid
  rw [h1]

/-- Witness for `predicateTypeValid_depends_only_on_keys` on two singleton
objects with the same key and differently typed values. -/
theorem predicateTypeValid_keys_witness :
    PredicateTypeMustBeValid "number" [("number", 1)]
      = PredicateTypeMustBeValid "number" [("number", true)] :=
  predicateTypeValid_depends_only_on_keys Nat Bool "number" _ _ (by intro k; simp)

end UIPredicate
